import Mathlib

/-!
Verification of the paginated list-query layer, the fetch cache, the dashboard
poller and the pagination controller of the odisha-school-portal repository.

The embedding follows the JavaScript source:
* the Express list routes for `GET /api/students` and `GET /api/schools`
  (query-string construction, the `countQuery` regex replace, the filter
  predicates, the `LIMIT`/`OFFSET` window, and the pagination envelope);
* the `GET /api/students/:id` detail route;
* `OdishaSchoolPortal.fetchWithCache` and the `currentPage` mutations in
  `app.js`;
* `DashboardManager.updateDashboardData` / `handleUpdateError` in
  `dashboard.js`.

JavaScript numbers are modelled as `Option ℚ`, where `none` stands for a
non-finite value (`NaN` or an infinity; both serialize to `null` in a JSON
response body).  The modelled fragment of the `Number(string)` coercion is the
decimal grammar (optional sign, digits, optional fraction); exponent, hex and
`Infinity` literals are outside the fragment, and double-precision rounding is
ignored (all inputs considered here are small integers).
-/

/-- JavaScript number: `some q` is a finite value, `none` is `NaN` (or an
infinity — both behave identically in every observation made here: they
fail the Postgres bigint parse and serialize to `null`). -/
abbrev JSNum := Option ℚ

/-- JavaScript subtraction: `NaN` absorbs. -/
def jsSub : JSNum → JSNum → JSNum
  | some a, some b => some (a - b)
  | _, _ => none

/-- JavaScript multiplication: `NaN` absorbs. -/
def jsMul : JSNum → JSNum → JSNum
  | some a, some b => some (a * b)
  | _, _ => none

/-- JavaScript division: `NaN` absorbs; division of a finite value by `0`
gives an infinity (also collapsed into `none`). -/
def jsDiv : JSNum → JSNum → JSNum
  | some a, some b => if b = 0 then none else some (a / b)
  | _, _ => none

/-- `Math.ceil`: `NaN` and infinities propagate. -/
def jsCeil : JSNum → JSNum :=
  Option.map (fun q => ((Int.ceil q : ℤ) : ℚ))

/-- Whitespace recognised by `String.prototype.trim` and by the Postgres
integer reader (ASCII fragment). -/
def isWsChar (c : Char) : Bool :=
  c == ' ' || c == '\t' || c == '\n' || c == '\r'

/-- Trim leading and trailing whitespace from a character list. -/
def trimChars (cs : List Char) : List Char :=
  ((cs.dropWhile isWsChar).reverse.dropWhile isWsChar).reverse

/-- Numeric value of a digit list (most significant first). -/
def digitsVal (cs : List Char) : ℕ :=
  cs.foldl (fun n c => n * 10 + (c.toNat - 48)) 0

/-- Unsigned part of the JavaScript decimal grammar:
`digits`, `digits . digits?` or `. digits`. -/
def jsUnsignedDecimal (cs : List Char) : Option ℚ :=
  let intPart := cs.takeWhile Char.isDigit
  match cs.dropWhile Char.isDigit with
  | [] => if intPart.isEmpty then none else some (digitsVal intPart : ℚ)
  | '.' :: frac =>
    if frac.all Char.isDigit && !(intPart.isEmpty && frac.isEmpty) then
      some ((digitsVal intPart : ℚ) + (digitsVal frac : ℚ) / ((10 : ℚ) ^ frac.length))
    else none
  | _ => none

/-- JavaScript `Number(string)` on the decimal fragment: trimmed empty string
is `0`; otherwise an optionally signed decimal literal; anything else is
`NaN` (`none`). -/
def jsToNumber (s : String) : JSNum :=
  match trimChars s.data with
  | [] => some 0
  | '+' :: rest => jsUnsignedDecimal rest
  | '-' :: rest => (jsUnsignedDecimal rest).map Neg.neg
  | cs => jsUnsignedDecimal cs

/-- Maximal leading digit run, `none` when the first character is not a
digit. -/
def leadingDigits (cs : List Char) : Option ℕ :=
  match cs.takeWhile Char.isDigit with
  | [] => none
  | ds => some (digitsVal ds)

/-- JavaScript `parseInt(string)` (radix 10, hex prefix ignored as outside
the fragment): trim, optional sign, then the maximal digit run; `NaN`
(`none`) when no digit follows. -/
def jsParseInt (s : String) : Option ℤ :=
  match trimChars s.data with
  | '+' :: rest => (leadingDigits rest).map Int.ofNat
  | '-' :: rest => (leadingDigits rest).map (fun n => -(n : ℤ))
  | cs => (leadingDigits cs).map Int.ofNat

/-- Postgres text-to-integer input syntax: optional surrounding whitespace,
optional sign, a nonempty digit run and nothing else; any other text makes
the query fail. -/
def pgParseInt (s : String) : Option ℤ :=
  match trimChars s.data with
  | '+' :: ds => if !ds.isEmpty && ds.all Char.isDigit then some (digitsVal ds : ℤ) else none
  | '-' :: ds => if !ds.isEmpty && ds.all Char.isDigit then some (-(digitsVal ds : ℤ)) else none
  | ds => if !ds.isEmpty && ds.all Char.isDigit then some (digitsVal ds : ℤ) else none

/-- A JavaScript number sent as a `LIMIT`/`OFFSET` parameter: Postgres
accepts it exactly when it is a finite non-negative integer (its decimal
serialization must parse as a non-negative bigint; `NaN`, infinities and
fractional values are rejected, and negative values raise the
must-not-be-negative error). -/
def pgWindowNat : JSNum → Option ℕ
  | none => none
  | some q => if q.den = 1 && decide (0 ≤ q.num) then some q.num.toNat else none

/-- Raw `limit` request value sent as the `LIMIT` parameter: present values
go to Postgres verbatim as text, the defaulted numbers `50`/`20` serialize
as their decimal text. -/
def pgLimitParam (raw : String) : Option ℕ :=
  (pgParseInt raw).bind (fun z => if decide (0 ≤ z) then some z.toNat else none)

/-- SQL `LIKE` pattern matching over characters: `%` matches any sequence
(that is, the rest of the pattern matches some suffix of the text), `_`
matches exactly one character, any other pattern character matches itself.
Case folding is applied by the caller (`ILIKE`). -/
def likeMatch : List Char → List Char → Bool
  | [], ts => ts.isEmpty
  | '%' :: ps, ts => (ts.tails).any (likeMatch ps)
  | '_' :: ps, _ :: ts => likeMatch ps ts
  | '_' :: _, [] => false
  | p :: ps, t :: ts => (p == t) && likeMatch ps ts
  | _ :: _, [] => false

/-- Postgres `ILIKE`: case-insensitive `LIKE`, modelled by folding both the
pattern and the text to lower case (wildcard characters are unaffected by
the fold). -/
def ilikeB (pat text : String) : Bool :=
  likeMatch (pat.data.map Char.toLower) (text.data.map Char.toLower)

/-- Bound search parameter built by both list routes: the raw search string
placed verbatim between two `%` markers, with no escaping of `%` or `_`
(source: `params.push(`...`%${search}%`...`)`). -/
def searchPattern (s : String) : String :=
  "%" ++ s ++ "%"

/-- Character-list prefix test. -/
def startsWithChars : List Char → List Char → Bool
  | [], _ => true
  | _ :: _, [] => false
  | a :: as, b :: bs => (a == b) && startsWithChars as bs

/-- Literal `SELECT` of the regular expression. -/
def selectChars : List Char := ['S', 'E', 'L', 'E', 'C', 'T']

/-- Literal `FROM` of the regular expression. -/
def fromChars : List Char := ['F', 'R', 'O', 'M']

/-- Lazy gap of the JavaScript regular expression `SELECT.*?FROM`: starting
at `cs`, the length of the shortest run of non-newline characters after
which `FROM` appears, or `none`.  The dot of a JavaScript regex without the
`s` flag does not match a line terminator, which is what makes the search
stop at a newline. -/
def lazyGapToFrom : List Char → Option ℕ
  | [] => none
  | c :: rest =>
    if startsWithChars fromChars (c :: rest) then some 0
    else if c == '\n' then none
    else (lazyGapToFrom rest).map (· + 1)

/-- Length of the match of `SELECT.*?FROM` anchored at the head of `cs`,
or `none`. -/
def selectFromHere (cs : List Char) : Option ℕ :=
  if startsWithChars selectChars cs then
    (lazyGapToFrom (cs.drop 6)).map (fun g => 6 + g + 4)
  else none

/-- Replacement text of the `countQuery` construction. -/
def countReplacement : List Char := "SELECT COUNT(*) FROM".data

/-- Scan for the leftmost (and there lazily shortest) match of
`SELECT.*?FROM`; on a match, return the text with the match replaced,
otherwise `none`. -/
def replaceSelectFromAux : List Char → Option (List Char)
  | [] => none
  | c :: rest =>
    match selectFromHere (c :: rest) with
    | some len => some (countReplacement ++ (c :: rest).drop len)
    | none => (replaceSelectFromAux rest).map (c :: ·)

/-- JavaScript `query.replace(/SELECT.*?FROM/, 'SELECT COUNT(*) FROM')`:
replace the first match, or return the string unchanged when the pattern
does not match anywhere. -/
def jsReplaceSelectFrom (s : String) : String :=
  match replaceSelectFromAux s.data with
  | some cs => String.mk cs
  | none => s

/-- True when the regular expression `SELECT.*?FROM` matches somewhere in
the string. -/
def hasSelectFromMatch (s : String) : Bool :=
  (replaceSelectFromAux s.data).isSome

/-- Base query of `GET /api/students` (the template literal of the source,
before optional filters are appended; note that the `SELECT` list and the
`FROM` clause sit on different lines). -/
def studentsBaseQuery : String :=
  "\n      SELECT s.student_id, s.admission_no, s.roll_no, s.first_name, s.last_name,\n             s.gender, s.date_of_birth, s.class_number, s.section, s.category,\n             s.guardian_name, s.guardian_phone, s.status,\n             sc.name as school_name, d.name as district_name\n      FROM students s\n      JOIN schools sc ON sc.school_id = s.school_id\n      JOIN blocks b ON b.block_id = sc.block_id\n      JOIN districts d ON d.district_id = b.district_id\n      WHERE s.status = $1\n    "

/-- Query text of `GET /api/students` as a function of which optional
filters are present (the filter values are bound as parameters and never
appear in the text; `paramCount` numbering follows the source). -/
def studentsQueryText (hasSchool hasClass hasSection hasSearch : Bool) : String :=
  let q := studentsBaseQuery
  let c := 1
  let q := if hasSchool then q ++ " AND s.school_id = $" ++ toString (c + 1) else q
  let c := if hasSchool then c + 1 else c
  let q := if hasClass then q ++ " AND s.class_number = $" ++ toString (c + 1) else q
  let c := if hasClass then c + 1 else c
  let q := if hasSection then q ++ " AND s.section = $" ++ toString (c + 1) else q
  let c := if hasSection then c + 1 else c
  let q := if hasSearch then
      q ++ " AND (s.first_name || \x27 \x27 || s.last_name ILIKE $" ++ toString (c + 1)
        ++ " OR s.admission_no ILIKE $" ++ toString (c + 2) ++ ")"
    else q
  q

/-- Base query of `GET /api/schools` (template literal of the source). -/
def schoolsBaseQuery : String :=
  "\n      SELECT s.school_id, s.school_code, s.name, s.address, s.phone, s.email,\n             s.total_students, s.total_teachers, s.status, s.established_year,\n             s.facilities, d.name as district_name, b.name as block_name\n      FROM schools s\n      JOIN blocks b ON b.block_id = s.block_id\n      JOIN districts d ON d.district_id = b.district_id\n      WHERE s.status = $1\n    "

/-- Query text of `GET /api/schools` as a function of which optional filters
are present. -/
def schoolsQueryText (hasDistrict hasBlock hasSearch : Bool) : String :=
  let q := schoolsBaseQuery
  let c := 1
  let q := if hasDistrict then q ++ " AND d.district_id = $" ++ toString (c + 1) else q
  let c := if hasDistrict then c + 1 else c
  let q := if hasBlock then q ++ " AND b.block_id = $" ++ toString (c + 1) else q
  let c := if hasBlock then c + 1 else c
  let q := if hasSearch then
      q ++ " AND (s.name ILIKE $" ++ toString (c + 1)
        ++ " OR s.school_code ILIKE $" ++ toString (c + 2) ++ ")"
    else q
  q

set_option maxRecDepth 40000 in
/-- The regex `SELECT.*?FROM` matches nowhere in any students query text:
`SELECT` and `FROM` never share a line, and the dot of a JavaScript regex
does not match a newline. -/
theorem studentsQuery_no_match :
    ∀ a b c d : Bool, hasSelectFromMatch (studentsQueryText a b c d) = false := by
  intro a b c d
  cases a <;> cases b <;> cases c <;> cases d <;> rfl

set_option maxRecDepth 40000 in
/-- The regex `SELECT.*?FROM` matches nowhere in any schools query text. -/
theorem schoolsQuery_no_match :
    ∀ a b c : Bool, hasSelectFromMatch (schoolsQueryText a b c) = false := by
  intro a b c
  cases a <;> cases b <;> cases c <;> rfl

/-- When the pattern has no match, `String.prototype.replace` returns the
string unchanged. -/
theorem jsReplaceSelectFrom_of_no_match (s : String)
    (h : hasSelectFromMatch s = false) : jsReplaceSelectFrom s = s := by
  unfold jsReplaceSelectFrom
  unfold hasSelectFromMatch at h
  cases hr : replaceSelectFromAux s.data with
  | none => rfl
  | some cs => rw [hr] at h; simp [Option.isSome] at h

/-- JavaScript truthiness of an optional query-string value: absent and the
empty string are falsy, every other string (including "0") is truthy. -/
def truthy : Option String → Bool
  | none => false
  | some s => !(s == "")

/-- Effective value of a filter parameter guarded by `if (value)` in the
source: the string when present and truthy, otherwise nothing. -/
def truthyVal : Option String → Option String
  | none => none
  | some s => if s == "" then none else some s

/-- Row of the joined students relation the students list query ranges over
(`students JOIN schools JOIN blocks JOIN districts`); only the columns the
filters and the rendering touch are kept. -/
structure StudentRow where
  student_id : ℕ
  admission_no : String
  first_name : String
  last_name : String
  school_id : ℕ
  class_number : ℕ
  section_name : String
  status : String
  school_name : String
  district_name : String
deriving DecidableEq

/-- Row of the joined schools relation the schools list query ranges over. -/
structure SchoolRow where
  school_id : ℕ
  school_code : String
  name : String
  district_id : ℕ
  block_id : ℕ
  total_students : ℕ
  status : String
  district_name : String
  block_name : String
deriving DecidableEq

/-- Query-string parameters of `GET /api/students`. -/
structure StudentsParams where
  page : Option String := none
  limit : Option String := none
  school_id : Option String := none
  class_number : Option String := none
  section_name : Option String := none
  status : Option String := none
  search : Option String := none
deriving DecidableEq

/-- Query-string parameters of `GET /api/schools`. -/
structure SchoolsParams where
  page : Option String := none
  limit : Option String := none
  district_id : Option String := none
  block_id : Option String := none
  status : Option String := none
  search : Option String := none
deriving DecidableEq

/-- Truthy integer filter parameter as Postgres sees it: absent or falsy
means no clause, a truthy value must parse as an integer or the whole query
fails (`some none` = no clause, `some (some z)` = clause comparing to `z`,
`none` = query error). -/
def intFilterParam : Option String → Option (Option ℤ)
  | none => some none
  | some s => if s == "" then some none else (pgParseInt s).map some

/-- Search clause of the students query:
`(s.first_name || ' ' || s.last_name ILIKE $n OR s.admission_no ILIKE $m)`
with the bound pattern `%search%`. -/
def studentsSearchClause (search : String) (r : StudentRow) : Bool :=
  ilikeB (searchPattern search) (r.first_name ++ " " ++ r.last_name)
    || ilikeB (searchPattern search) r.admission_no

/-- Search clause of the schools query:
`(s.name ILIKE $n OR s.school_code ILIKE $m)` with the bound pattern
`%search%`. -/
def schoolsSearchClause (search : String) (r : SchoolRow) : Bool :=
  ilikeB (searchPattern search) r.name
    || ilikeB (searchPattern search) r.school_code

/-- WHERE predicate of the students list query: status equality (destructuring
default `'Active'` when the parameter is absent) plus the optional clauses;
`none` when a truthy integer filter fails the Postgres integer parse, which
makes the route answer 500. -/
def studentFilter (p : StudentsParams) : Option (StudentRow → Bool) :=
  let statusV := p.status.getD "Active"
  match intFilterParam p.school_id, intFilterParam p.class_number with
  | some schoolF, some classF =>
    some (fun r =>
      r.status == statusV
        && (match schoolF with
            | none => true
            | some z => decide ((r.school_id : ℤ) = z))
        && (match classF with
            | none => true
            | some z => decide ((r.class_number : ℤ) = z))
        && (match truthyVal p.section_name with
            | none => true
            | some s => r.section_name == s)
        && (match truthyVal p.search with
            | none => true
            | some s => studentsSearchClause s r))
  | _, _ => none

/-- WHERE predicate of the schools list query; `none` when a truthy integer
filter fails the Postgres integer parse. -/
def schoolFilter (p : SchoolsParams) : Option (SchoolRow → Bool) :=
  let statusV := p.status.getD "Active"
  match intFilterParam p.district_id, intFilterParam p.block_id with
  | some districtF, some blockF =>
    some (fun r =>
      r.status == statusV
        && (match districtF with
            | none => true
            | some z => decide ((r.district_id : ℤ) = z))
        && (match blockF with
            | none => true
            | some z => decide ((r.block_id : ℤ) = z))
        && (match truthyVal p.search with
            | none => true
            | some s => schoolsSearchClause s r))
  | _, _ => none

/-- Rows matching the list filters (the rows both the count query and the
data query range over); empty when the filter itself is malformed. -/
def studentsMatching (db : List StudentRow) (p : StudentsParams) : List StudentRow :=
  match studentFilter p with
  | none => []
  | some pred => db.filter pred

/-- Rows matching the schools list filters. -/
def schoolsMatching (db : List SchoolRow) (p : SchoolsParams) : List SchoolRow :=
  match schoolFilter p with
  | none => []
  | some pred => db.filter pred

/-- Strict lexicographic order on character lists (by code point; stands in
for the database text collation, whose exact order no claim depends on). -/
def lexLtChars : List Char → List Char → Bool
  | [], [] => false
  | [], _ :: _ => true
  | _ :: _, [] => false
  | a :: as, b :: bs => a < b || (a == b && lexLtChars as bs)

/-- Strict text order. -/
def strLtB (a b : String) : Bool :=
  lexLtChars a.data b.data

/-- Non-strict text order. -/
def strLeB (a b : String) : Bool :=
  strLtB a b || a == b

/-- ORDER BY relation of the students query
(`ORDER BY s.last_name, s.first_name`). -/
def studentOrder (a b : StudentRow) : Prop :=
  strLtB a.last_name b.last_name = true
    ∨ (a.last_name = b.last_name ∧ strLeB a.first_name b.first_name = true)

instance : DecidableRel studentOrder := fun a b =>
  inferInstanceAs (Decidable
    (strLtB a.last_name b.last_name = true
      ∨ (a.last_name = b.last_name ∧ strLeB a.first_name b.first_name = true)))

/-- ORDER BY relation of the schools query (`ORDER BY s.name`). -/
def schoolOrder (a b : SchoolRow) : Prop :=
  strLeB a.name b.name = true

instance : DecidableRel schoolOrder := fun a b =>
  inferInstanceAs (Decidable (strLeB a.name b.name = true))

/-- Sorted students result set (one deterministic execution of the
`ORDER BY`; SQL leaves tie order unspecified and any sorted permutation is
a valid execution). -/
def sortStudents (l : List StudentRow) : List StudentRow :=
  List.insertionSort studentOrder l

/-- Sorted schools result set. -/
def sortSchools (l : List SchoolRow) : List SchoolRow :=
  List.insertionSort schoolOrder l

/-- Pagination envelope of a list response.  `page` and `limit` are
`parseInt` results, `total` and `pages` plain JavaScript numbers; `none`
serializes to `null`. -/
structure Pagination where
  page : Option ℤ
  limit : Option ℤ
  total : JSNum
  pages : JSNum
deriving DecidableEq

/-- Outcome of a list route: a 200 body with `data` and `pagination`, or the
generic catch-all 500 body `{success:false, error:message}`. -/
inductive ListOutcome (ρ : Type) where
  | ok (data : List ρ) (pagination : Pagination)
  | serverError (message : String)
deriving DecidableEq

/-- Whether a list outcome is a success response. -/
def ListOutcome.isOk {ρ : Type} : ListOutcome ρ → Bool
  | .ok _ _ => true
  | .serverError _ => false

/-- Destructured `page`/`limit` value coerced with `Number`: the
destructuring default (a JavaScript number) applies only when the query
parameter is absent; a present string goes through the string-to-number
coercion. -/
def jsNumberParam (v : Option String) (dflt : ℚ) : JSNum :=
  match v with
  | none => some dflt
  | some s => jsToNumber s

/-- Destructured `page`/`limit` value passed to `parseInt` for the
pagination envelope: `parseInt` of the default number `d` is `d` itself
(its decimal string re-parses). -/
def jsParseIntParam (v : Option String) (dflt : ℤ) : Option ℤ :=
  match v with
  | none => some dflt
  | some s => jsParseInt s

/-- The value `parseInt(countResult.rows[0].count)` actually computes: the
count query text equals the data query text (`studentsQuery_no_match`,
`schoolsQuery_no_match`), so its rows are entity rows with no `count`
column; `rows[0].count` is `undefined` and `parseInt(undefined)` is `NaN`. -/
def parseIntUndefined : JSNum := none

/-- JS `offset = (page - 1) * limit` for the students route (defaults
`page = 1`, `limit = 50`). -/
def studentsOffsetN (p : StudentsParams) : JSNum :=
  jsMul (jsSub (jsNumberParam p.page 1) (some 1)) (jsNumberParam p.limit 50)

/-- JS `offset = (page - 1) * limit` for the schools route (defaults
`page = 1`, `limit = 20`). -/
def schoolsOffsetN (p : SchoolsParams) : JSNum :=
  jsMul (jsSub (jsNumberParam p.page 1) (some 1)) (jsNumberParam p.limit 20)

/-- Pagination envelope the students route serializes: `page`/`limit` echo
`parseInt` of the request values, `total` is the NaN produced by the broken
count extraction, and `pages = Math.ceil(totalCount / limit)` is NaN as
well. -/
def studentsPagination (p : StudentsParams) : Pagination :=
  { page := jsParseIntParam p.page 1
    limit := jsParseIntParam p.limit 50
    total := parseIntUndefined
    pages := jsCeil (jsDiv parseIntUndefined (jsNumberParam p.limit 50)) }

/-- Pagination envelope the schools route serializes. -/
def schoolsPagination (p : SchoolsParams) : Pagination :=
  { page := jsParseIntParam p.page 1
    limit := jsParseIntParam p.limit 20
    total := parseIntUndefined
    pages := jsCeil (jsDiv parseIntUndefined (jsNumberParam p.limit 20)) }

/-- Handler of `GET /api/students`.  Steps, in source order: build the WHERE
predicate (a malformed truthy integer filter makes the count query fail →
500); run the count query — whose text the regex replace left equal to the
data query text — so its rows are the matching entity rows: with no row,
`rows[0]` is `undefined` and reading `.count` throws (→ 500), with a row
`total` becomes `parseInt(undefined) = NaN`; then run the data query with
`ORDER BY … LIMIT $n OFFSET $m`, which Postgres rejects when the raw
`limit` text or the computed offset is not a non-negative integer (→ 500). -/
def studentsRoute (db : List StudentRow) (p : StudentsParams) : ListOutcome StudentRow :=
  match studentFilter p with
  | none => .serverError "Failed to fetch students"
  | some pred =>
    match db.filter pred with
    | [] => .serverError "Failed to fetch students"
    | r :: rs =>
      match pgLimitParam ((p.limit).getD "50"), pgWindowNat (studentsOffsetN p) with
      | some l, some o =>
        .ok (((sortStudents (r :: rs)).drop o).take l) (studentsPagination p)
      | _, _ => .serverError "Failed to fetch students"

/-- Handler of `GET /api/schools`; same shape as the students handler with
the schools filters, default limit 20 and `ORDER BY s.name`. -/
def schoolsRoute (db : List SchoolRow) (p : SchoolsParams) : ListOutcome SchoolRow :=
  match schoolFilter p with
  | none => .serverError "Failed to fetch schools"
  | some pred =>
    match db.filter pred with
    | [] => .serverError "Failed to fetch schools"
    | r :: rs =>
      match pgLimitParam ((p.limit).getD "20"), pgWindowNat (schoolsOffsetN p) with
      | some l, some o =>
        .ok (((sortSchools (r :: rs)).drop o).take l) (schoolsPagination p)
      | _, _ => .serverError "Failed to fetch schools"

/-- Student table row (columns used by the detail route). -/
structure Student where
  student_id : ℕ
  school_id : ℕ
  first_name : String
  last_name : String
  status : String
deriving DecidableEq

/-- School table row (columns used by the detail route join). -/
structure School where
  school_id : ℕ
  block_id : ℕ
  name : String
deriving DecidableEq

/-- Block table row. -/
structure BlockRow where
  block_id : ℕ
  district_id : ℕ
  name : String
deriving DecidableEq

/-- District table row. -/
structure District where
  district_id : ℕ
  name : String
deriving DecidableEq

/-- student_attendance row (columns the detail route selects). -/
structure AttendanceRecord where
  student_id : ℕ
  attendance_date : ℤ
  status : String
deriving DecidableEq

/-- Relational state the detail route reads. -/
structure PortalDb where
  students : List Student
  schools : List School
  blocks : List BlockRow
  districts : List District
  attendance : List AttendanceRecord

/-- Row of the detail query result: the student together with the joined
school and district names. -/
structure StudentDetailRow where
  student : Student
  school_name : String
  district_name : String
deriving DecidableEq

/-- Result rows of the detail query
`students JOIN schools JOIN blocks JOIN districts WHERE student_id = $1`. -/
def studentJoinRows (db : PortalDb) (i : ℤ) : List StudentDetailRow :=
  (db.students.filter (fun s => decide ((s.student_id : ℤ) = i))).flatMap (fun s =>
    (db.schools.filter (fun sc => sc.school_id == s.school_id)).flatMap (fun sc =>
      (db.blocks.filter (fun b => b.block_id == sc.block_id)).flatMap (fun b =>
        (db.districts.filter (fun d => d.district_id == b.district_id)).map (fun d =>
          ⟨s, sc.name, d.name⟩))))

/-- ORDER BY relation of the attendance query
(`ORDER BY attendance_date DESC`). -/
def attendanceDesc (a b : AttendanceRecord) : Prop :=
  b.attendance_date ≤ a.attendance_date

instance : DecidableRel attendanceDesc := fun a b =>
  inferInstanceAs (Decidable (b.attendance_date ≤ a.attendance_date))

instance : IsTotal AttendanceRecord attendanceDesc :=
  ⟨fun a b => (le_total b.attendance_date a.attendance_date).imp id id⟩

instance : IsTrans AttendanceRecord attendanceDesc :=
  ⟨fun _ _ _ h1 h2 => le_trans h2 h1⟩

/-- Outcome of `GET /api/students/:id`: 200 with student and recent
attendance, 404 `{success:false, error:"Student not found"}`, or the
generic 500. -/
inductive DetailOutcome where
  | ok (row : StudentDetailRow) (recent_attendance : List AttendanceRecord)
  | notFound (message : String)
  | serverError (message : String)
deriving DecidableEq

/-- Handler of `GET /api/students/:id`: 404 when the join returns no row,
otherwise `rows[0]` plus the attendance query
`WHERE student_id = $1 ORDER BY attendance_date DESC LIMIT 10`.  A path id
Postgres cannot read as an integer fails the query (500). -/
def studentDetailRoute (db : PortalDb) (idStr : String) : DetailOutcome :=
  match pgParseInt idStr with
  | none => .serverError "Failed to fetch student details"
  | some i =>
    match studentJoinRows db i with
    | [] => .notFound "Student not found"
    | r :: _ =>
      .ok r
        ((List.insertionSort attendanceDesc
            (db.attendance.filter (fun a => decide ((a.student_id : ℤ) = i)))).take 10)

/-- Entry of the client cache map: `{data, timestamp}`. -/
structure CacheEntry (α : Type) where
  data : α
  timestamp : ℤ
deriving DecidableEq

/-- In-memory cache: a JavaScript `Map` from endpoint strings to entries,
modelled as an association list (insertion order preserved, `set` replaces
in place). -/
abbrev CacheMap (α : Type) := List (String × CacheEntry α)

/-- JavaScript `Map.prototype.get`. -/
def mapGet {α : Type} (k : String) : CacheMap α → Option (CacheEntry α)
  | [] => none
  | (k2, v) :: rest => if k2 == k then some v else mapGet k rest

/-- JavaScript `Map.prototype.set`: replace the existing entry in place or
append a new one. -/
def mapSet {α : Type} (k : String) (v : CacheEntry α) : CacheMap α → CacheMap α
  | [] => [(k, v)]
  | (k2, v2) :: rest => if k2 == k then (k, v) :: rest else (k2, v2) :: mapSet k v rest

/-- Result / state / effect of one `fetchWithCache` invocation. -/
structure FetchOutcome (α : Type) where
  result : Except Unit α
  cache : CacheMap α
  networkCalled : Bool

/-- `OdishaSchoolPortal.fetchWithCache(endpoint, ttl)`: serve the cached
data when an entry exists and `Date.now() - cached.timestamp < ttl`
(strict); otherwise perform the network fetch — on success store
`{data, timestamp: Date.now()}` under the endpoint key and return the data,
on failure propagate the error without touching the cache.  `net` is the
behaviour of the underlying `fetchApi` call, `now` the current clock. -/
def fetchWithCache {α : Type} (net : Except Unit α) (now : ℤ)
    (cache : CacheMap α) (endpoint : String) (ttl : ℤ) : FetchOutcome α :=
  match mapGet endpoint cache with
  | some cached =>
    if now - cached.timestamp < ttl then
      { result := .ok cached.data, cache := cache, networkCalled := false }
    else
      match net with
      | .error e => { result := .error e, cache := cache, networkCalled := true }
      | .ok d =>
        { result := .ok d, cache := mapSet endpoint ⟨d, now⟩ cache, networkCalled := true }
  | none =>
    match net with
    | .error e => { result := .error e, cache := cache, networkCalled := true }
    | .ok d =>
      { result := .ok d, cache := mapSet endpoint ⟨d, now⟩ cache, networkCalled := true }

/-- Visible state of the dashboard poller: whether the `lastSync` element
exists, its text and colour, and the `setTimeout(updateDashboardData, d)`
delays scheduled so far (the 2-second colour-reset and card-animation
timers never invoke the update function and are not retries). -/
structure PollerState where
  hasSyncElement : Bool
  syncText : String
  syncColor : String
  scheduledRetries : List ℕ
deriving DecidableEq

/-- `DashboardManager.handleUpdateError`: paint the sync indicator with the
failure text (when the element exists) and schedule exactly one
`setTimeout(() => this.updateDashboardData(), 10000)`. -/
def handleUpdateError (st : PollerState) : PollerState :=
  let st2 :=
    if st.hasSyncElement then
      { st with syncText := "Sync failed - Retrying...", syncColor := "#ef4444" }
    else st
  { st2 with scheduledRetries := st2.scheduledRetries ++ [10000] }

/-- `DashboardManager.updateSyncStatus`: on a successful cycle, show the
timestamp in green (the 2-second colour reset timer is elided). -/
def updateSyncStatus (ts : String) (st : PollerState) : PollerState :=
  if st.hasSyncElement then
    { st with syncText := "Last sync: " ++ ts, syncColor := "#10b981" }
  else st

/-- Result of the awaited body of one update cycle: either it completes
with the formatted timestamp, or something inside it throws. -/
inductive UpdateOutcome where
  | success (timestamp : String)
  | failure
deriving DecidableEq

/-- `DashboardManager.updateDashboardData`: the try block ends with
`updateSyncStatus`; the catch block calls `handleUpdateError`. -/
def updateDashboardData (o : UpdateOutcome) (st : PollerState) : PollerState :=
  match o with
  | .success ts => updateSyncStatus ts st
  | .failure => handleUpdateError st

/-- Sections whose list views are paginated. -/
inductive ListSection where
  | schools
  | students
deriving DecidableEq

/-- Navigable sections of the portal. -/
inductive NavSection where
  | dashboard
  | schools
  | students
  | analytics
deriving DecidableEq

/-- Per-tab state of `OdishaSchoolPortal` relevant to pagination:
`this.currentPage = {schools: 1, students: 1}` plus a log of the load
operations the handlers trigger (DOM and cache effects of the loads are
outside this state). -/
structure AppState where
  pageSchools : ℤ
  pageStudents : ℤ
  loads : List NavSection
deriving DecidableEq

/-- User-driven operations of `OdishaSchoolPortal` that read or write
`currentPage` or trigger section loads: the pagination controls
(`changePage`), the search buttons (`searchSchools`, `searchStudents`),
the navigation handler (`showSection`), the refresh button
(`refreshCurrentSection`, with the active section it reads from the DOM)
and the section loaders themselves. -/
inductive AppOp where
  | changePage (sectionId : ListSection) (newPage : ℤ)
  | searchSchools
  | searchStudents
  | showSection (sectionId : NavSection)
  | refreshCurrentSection (active : NavSection)
  | loadSchools
  | loadStudents
  | loadDashboard
  | loadAnalytics
deriving DecidableEq

/-- Record a triggered load. -/
def logLoad (s : NavSection) (st : AppState) : AppState :=
  { st with loads := st.loads ++ [s] }

/-- Load dispatch of `showSection` (and of `refreshCurrentSection`, which
clears the cache and re-enters `showSection` with the active section). -/
def dispatchLoad : NavSection → AppState → AppState
  | .dashboard, st => logLoad .dashboard st
  | .schools, st => logLoad .schools st
  | .students, st => logLoad .students st
  | .analytics, st => logLoad .analytics st

/-- One step of the app: the source body of each handler.
`changePage` writes `this.currentPage[section] = newPage` then reloads the
section; `searchSchools`/`searchStudents` write
`this.currentPage.x = 1` then reload; every other operation leaves
`currentPage` untouched. -/
def applyOp : AppOp → AppState → AppState
  | .changePage .schools n, st => logLoad .schools { st with pageSchools := n }
  | .changePage .students n, st => logLoad .students { st with pageStudents := n }
  | .searchSchools, st => logLoad .schools { st with pageSchools := 1 }
  | .searchStudents, st => logLoad .students { st with pageStudents := 1 }
  | .showSection s, st => dispatchLoad s st
  | .refreshCurrentSection s, st => dispatchLoad s st
  | .loadSchools, st => logLoad .schools st
  | .loadStudents, st => logLoad .students st
  | .loadDashboard, st => logLoad .dashboard st
  | .loadAnalytics, st => logLoad .analytics st

/-- Operations the claim singles out: the page-number / previous / next
controls. -/
def isChangePage : AppOp → Bool
  | .changePage _ _ => true
  | _ => false

/-- Operations that actually write `currentPage` in the source: the page
controls and the two search triggers. -/
def isPageMutator : AppOp → Bool
  | .changePage _ _ => true
  | .searchSchools => true
  | .searchStudents => true
  | _ => false

/-- Every character list is the first entry of its own `tails`. -/
theorem self_mem_tails (ts : List Char) : ts ∈ ts.tails := by
  cases ts <;> simp [List.tails]

/-- The empty list is a tail of every character list. -/
theorem nil_mem_tails (ts : List Char) : [] ∈ ts.tails := by
  induction ts with
  | nil => simp [List.tails]
  | cons t ts2 ih => simp [List.tails]

/-- A lone `%` pattern matches any text. -/
theorem likeMatch_one_percent (ts : List Char) : likeMatch ['%'] ts = true := by
  have h : likeMatch ['%'] ts = (ts.tails).any (likeMatch []) := by simp only [likeMatch]
  rw [h, List.any_eq_true]
  exact ⟨[], nil_mem_tails ts, rfl⟩

/-- The pattern `%%` matches any text. -/
theorem likeMatch_two_percent (ts : List Char) : likeMatch ['%', '%'] ts = true := by
  have h : likeMatch ['%', '%'] ts = (ts.tails).any (likeMatch ['%']) := by
    simp only [likeMatch]
  rw [h, List.any_eq_true]
  exact ⟨ts, self_mem_tails ts, likeMatch_one_percent ts⟩

/-- The pattern `%%%` (built from the search value `%`) matches any text. -/
theorem likeMatch_three_percent (ts : List Char) : likeMatch ['%', '%', '%'] ts = true := by
  have h : likeMatch ['%', '%', '%'] ts = (ts.tails).any (likeMatch ['%', '%']) := by
    simp only [likeMatch]
  rw [h, List.any_eq_true]
  exact ⟨ts, self_mem_tails ts, likeMatch_two_percent ts⟩

/-- The `ILIKE` pattern built from the search value `%` matches every
string. -/
theorem ilikeB_percent_matches (t : String) : ilikeB (searchPattern "%") t = true := by
  show likeMatch (("%%%" : String).data.map Char.toLower) (t.data.map Char.toLower) = true
  exact likeMatch_three_percent _

/-- C10: the search value is embedded verbatim between `%` markers in the
bound `ILIKE` pattern with no escaping of SQL wildcard characters, so the
search string `%` makes both `ILIKE` alternatives of the students clause and
of the schools clause match every row — rather than selecting rows that
contain a literal percent sign. -/
theorem C10_search_not_escaped :
    (∀ s : String, searchPattern s = "%" ++ s ++ "%")
    ∧ (∀ r : StudentRow, studentsSearchClause "%" r = true)
    ∧ (∀ r : SchoolRow, schoolsSearchClause "%" r = true) := by
  refine ⟨fun s => rfl, fun r => ?_, fun r => ?_⟩
  · simp [studentsSearchClause, ilikeB_percent_matches]
  · simp [schoolsSearchClause, ilikeB_percent_matches]

/-- C9 counterexample: the claim that clicking a page control is the only
write to `currentPage` is false — `searchSchools` (the search button
handler) also writes it, resetting `currentPage.schools` from 3 to 1. -/
theorem C9_counterexample :
    ¬ (∀ (op : AppOp) (st : AppState), isChangePage op = false →
        (applyOp op st).pageSchools = st.pageSchools ∧
        (applyOp op st).pageStudents = st.pageStudents) := by
  intro h
  have h2 := (h .searchSchools ⟨3, 1, []⟩ rfl).1
  simp [applyOp, logLoad] at h2

/-- C9 amended: `currentPage` is written exactly by the page controls
(`changePage`) and by the search triggers (`searchSchools`,
`searchStudents`, which reset the section page to 1); each of these also
re-triggers the section load, and no other operation writes
`currentPage`. -/
theorem C9_page_mutators :
    (∀ (op : AppOp) (st : AppState), isPageMutator op = false →
        (applyOp op st).pageSchools = st.pageSchools ∧
        (applyOp op st).pageStudents = st.pageStudents)
    ∧ (∀ (st : AppState) (n : ℤ),
        (applyOp (.changePage .schools n) st).pageSchools = n ∧
        (applyOp (.changePage .schools n) st).loads = st.loads ++ [.schools] ∧
        (applyOp (.changePage .students n) st).pageStudents = n ∧
        (applyOp (.changePage .students n) st).loads = st.loads ++ [.students])
    ∧ (∀ st : AppState,
        (applyOp .searchSchools st).pageSchools = 1 ∧
        (applyOp .searchSchools st).loads = st.loads ++ [.schools] ∧
        (applyOp .searchStudents st).pageStudents = 1 ∧
        (applyOp .searchStudents st).loads = st.loads ++ [.students]) := by
  refine ⟨fun op st h => ?_, fun st n => ?_, fun st => ?_⟩
  · cases op with
    | changePage sec n => simp [isPageMutator] at h
    | searchSchools => simp [isPageMutator] at h
    | searchStudents => simp [isPageMutator] at h
    | showSection s => cases s <;> simp [applyOp, dispatchLoad, logLoad]
    | refreshCurrentSection s => cases s <;> simp [applyOp, dispatchLoad, logLoad]
    | loadSchools => simp [applyOp, logLoad]
    | loadStudents => simp [applyOp, logLoad]
    | loadDashboard => simp [applyOp, logLoad]
    | loadAnalytics => simp [applyOp, logLoad]
  · simp [applyOp, logLoad]
  · simp [applyOp, logLoad]

/-- C9 witness: a non-mutator (`loadSchools`) leaves both pages of the
concrete state `⟨2, 5, []⟩` unchanged. -/
theorem C9_witness :
    (applyOp .loadSchools ⟨2, 5, []⟩).pageSchools = 2 ∧
    (applyOp .loadSchools ⟨2, 5, []⟩).pageStudents = 5 :=
  C9_page_mutators.1 .loadSchools ⟨2, 5, []⟩ rfl

/-- C7: when an update cycle throws, the handler immediately sets the sync
indicator to the failure string (and failure colour) and appends exactly one
scheduled retry of the update function with the fixed 10-second delay; the
statement holds for every incoming state, so a retry that fails reschedules
in exactly the same way. -/
theorem C7_update_failure_retry (st : PollerState) (h : st.hasSyncElement = true) :
    updateDashboardData .failure st =
      { st with syncText := "Sync failed - Retrying...",
                syncColor := "#ef4444",
                scheduledRetries := st.scheduledRetries ++ [10000] } ∧
    (updateDashboardData .failure st).scheduledRetries.length =
      st.scheduledRetries.length + 1 := by
  constructor
  · simp [updateDashboardData, handleUpdateError, h]
  · simp [updateDashboardData, handleUpdateError, h]

/-- C7 witness: the failure handler applied to a concrete healthy state. -/
theorem C7_witness :
    updateDashboardData .failure ⟨true, "Last sync: 10:00:00", "#10b981", []⟩ =
      ⟨true, "Sync failed - Retrying...", "#ef4444", [10000]⟩ ∧
    (updateDashboardData .failure
        ⟨true, "Last sync: 10:00:00", "#10b981", []⟩).scheduledRetries.length = 0 + 1 :=
  C7_update_failure_retry ⟨true, "Last sync: 10:00:00", "#10b981", []⟩ rfl

/-- Looking up a key right after `Map.set` on that key yields the new
entry. -/
theorem mapGet_mapSet_self {α : Type} (k : String) (v : CacheEntry α) :
    ∀ m : CacheMap α, mapGet k (mapSet k v m) = some v := by
  intro m
  induction m with
  | nil => simp [mapGet, mapSet]
  | cons h2 t ih =>
    obtain ⟨k2, v2⟩ := h2
    by_cases hk : k2 == k
    · simp [mapGet, mapSet, hk]
    · simp only [mapSet, hk, Bool.false_eq_true, if_false, mapGet, ih]

/-- A first call that actually fetched stored the fetched payload under the
endpoint with the call timestamp. -/
theorem fetchWithCache_store {α : Type} (d : α) (t0 : ℤ) (c0 : CacheMap α)
    (e : String) (ttl : ℤ)
    (h : (fetchWithCache (Except.ok d) t0 c0 e ttl).networkCalled = true) :
    (fetchWithCache (Except.ok d) t0 c0 e ttl).cache = mapSet e ⟨d, t0⟩ c0 := by
  unfold fetchWithCache at h ⊢
  cases hg : mapGet e c0 with
  | none => simp [hg]
  | some cached =>
    by_cases hf : t0 - cached.timestamp < ttl
    · simp [hg, hf] at h
    · simp [hg, hf]

/-- C4: after a first call whose fetch succeeded at time `t0`, a second
call strictly less than `ttl1` milliseconds later returns the cached
payload with no network request and leaves the cache unchanged, and a call
at least `ttl2` milliseconds later performs a new network request and
replaces the stored entry and its timestamp — freshness is always judged
against the single stored timestamp, and the replacing write wins. -/
theorem C4_cache_freshness {α : Type} (c0 : CacheMap α) (e : String) (d d2 : α)
    (t0 t1 t2 ttl0 ttl1 ttl2 : ℤ) (net1 : Except Unit α)
    (hfetch : (fetchWithCache (Except.ok d) t0 c0 e ttl0).networkCalled = true)
    (hfresh : t1 - t0 < ttl1) (hstale : ttl2 ≤ t2 - t0) :
    fetchWithCache net1 t1 ((fetchWithCache (Except.ok d) t0 c0 e ttl0).cache) e ttl1 =
      { result := .ok d,
        cache := (fetchWithCache (Except.ok d) t0 c0 e ttl0).cache,
        networkCalled := false } ∧
    fetchWithCache (Except.ok d2) t2
        ((fetchWithCache (Except.ok d) t0 c0 e ttl0).cache) e ttl2 =
      { result := .ok d2,
        cache := mapSet e ⟨d2, t2⟩ ((fetchWithCache (Except.ok d) t0 c0 e ttl0).cache),
        networkCalled := true } := by
  have hc1 := fetchWithCache_store d t0 c0 e ttl0 hfetch
  rw [hc1]
  have hget := mapGet_mapSet_self e (⟨d, t0⟩ : CacheEntry α) c0
  constructor
  · unfold fetchWithCache
    rw [hget]
    simp [hfresh]
  · unfold fetchWithCache
    rw [hget]
    have : ¬ (t2 - t0 < ttl2) := by omega
    simp [this]

/-- C4 witness: endpoint `/x`, payload 7 fetched at time 0 with ttl 1000; a
call at 999 is served from the cache with no network request, a call at
1000 refetches and overwrites the entry with timestamp 1000. -/
theorem C4_witness :
    fetchWithCache (Except.error ()) 999
        ((fetchWithCache (Except.ok 7) 0 ([] : CacheMap ℕ) "/x" 1000).cache) "/x" 1000 =
      { result := .ok 7,
        cache := (fetchWithCache (Except.ok 7) 0 ([] : CacheMap ℕ) "/x" 1000).cache,
        networkCalled := false } ∧
    fetchWithCache (Except.ok 9) 1000
        ((fetchWithCache (Except.ok 7) 0 ([] : CacheMap ℕ) "/x" 1000).cache) "/x" 1000 =
      { result := .ok 9,
        cache := mapSet "/x" ⟨9, 1000⟩
          ((fetchWithCache (Except.ok 7) 0 ([] : CacheMap ℕ) "/x" 1000).cache),
        networkCalled := true } :=
  C4_cache_freshness [] "/x" 7 9 0 999 1000 1000 1000 1000 (Except.error ())
    (by decide) (by decide) (by decide)

/-- Decidable freshness-check failure: no entry for the key, or the entry
is at least `ttl` old at time `now`. -/
def cacheStale {α : Type} (c : CacheMap α) (e : String) (now ttl : ℤ) : Bool :=
  match mapGet e c with
  | none => true
  | some ent => decide (ttl ≤ now - ent.timestamp)

/-- C5: when the freshness test fails and the underlying network fetch
throws, `fetchWithCache` propagates the error, leaves the cache map
completely unchanged (no entry created or replaced), and any later
invocation for the same key attempts the network again — errors are never
cached. -/
theorem C5_error_not_cached {α : Type} (c : CacheMap α) (e : String) (now ttl : ℤ)
    (hstale : cacheStale c e now ttl = true) :
    fetchWithCache (Except.error ()) now c e ttl =
      { result := .error (), cache := c, networkCalled := true } ∧
    (∀ (now2 : ℤ) (net2 : Except Unit α), now ≤ now2 →
      (fetchWithCache net2 now2 c e ttl).networkCalled = true) := by
  unfold cacheStale at hstale
  cases hg : mapGet e c with
  | none =>
    constructor
    · unfold fetchWithCache
      rw [hg]
    · intro now2 net2 _
      unfold fetchWithCache
      rw [hg]
      cases net2 <;> simp
  | some ent =>
    rw [hg] at hstale
    have hle : ttl ≤ now - ent.timestamp := of_decide_eq_true hstale
    constructor
    · unfold fetchWithCache
      rw [hg]
      have : ¬ (now - ent.timestamp < ttl) := by omega
      simp [this]
    · intro now2 net2 h2
      unfold fetchWithCache
      rw [hg]
      have : ¬ (now2 - ent.timestamp < ttl) := by omega
      cases net2 <;> simp [this]

/-- C5 witness: a stale entry (stored at 0, read at 1000 with ttl 1000) and
a failing fetch: the error propagates, the cache is untouched, and a retry
at 1500 attempts the network again. -/
theorem C5_witness :
    fetchWithCache (Except.error ()) 1000 ([("/x", ⟨5, 0⟩)] : CacheMap ℕ) "/x" 1000 =
      { result := .error (), cache := [("/x", ⟨5, 0⟩)], networkCalled := true } ∧
    (fetchWithCache (Except.error ()) 1500
        ([("/x", ⟨5, 0⟩)] : CacheMap ℕ) "/x" 1000).networkCalled = true :=
  ⟨(C5_error_not_cached [("/x", ⟨5, 0⟩)] "/x" 1000 1000 (by decide)).1,
   (C5_error_not_cached [("/x", ⟨5, 0⟩)] "/x" 1000 1000 (by decide)).2 1500
     (Except.error ()) (by decide)⟩

/-- A natural number sent as `LIMIT`/`OFFSET` parameter is accepted by
Postgres unchanged. -/
theorem pgWindowNat_natCast (n : ℕ) : pgWindowNat (some (n : ℚ)) = some n := by
  simp [pgWindowNat, Rat.den_natCast, Rat.num_natCast, Int.toNat_natCast]

/-- Sample active student rows. -/
def stuRow1 : StudentRow :=
  ⟨1, "ADM1", "Asha", "Behera", 1, 5, "A", "Active", "GP School", "Khurda"⟩

/-- Second sample student. -/
def stuRow2 : StudentRow :=
  ⟨2, "ADM2", "Bijay", "Das", 1, 5, "A", "Active", "GP School", "Khurda"⟩

/-- Third sample student. -/
def stuRow3 : StudentRow :=
  ⟨3, "ADM3", "Chitra", "Nayak", 1, 6, "B", "Active", "GP School", "Khurda"⟩

/-- Sample active school rows. -/
def schRow1 : SchoolRow :=
  ⟨1, "SC1", "Public School", 1, 1, 100, "Active", "Khurda", "BlockA"⟩

/-- Second sample school. -/
def schRow2 : SchoolRow :=
  ⟨2, "SC2", "Town School", 1, 1, 80, "Active", "Khurda", "BlockA"⟩

/-- Third sample school. -/
def schRow3 : SchoolRow :=
  ⟨3, "SC3", "Village School", 1, 2, 60, "Active", "Khurda", "BlockB"⟩

/-- C1 counterexample: with zero matching rows (empty database) and valid
`page=1`, `limit=20`, the schools route does not answer with an empty data
array — the broken count step dereferences the missing first row and the
route returns the generic 500 error. -/
theorem C1_counterexample :
    schoolsRoute ([] : List SchoolRow) ⟨some "1", some "20", none, none, none, none⟩ =
      ListOutcome.serverError "Failed to fetch schools" := by
  decide

/-- C1 amended: for numeric `page ≥ 1` and `limit ≥ 1`, provided at least
one row matches the filters, both list routes answer success and the data
array has length `min(limit, total - (page-1)*limit)` (truncated at 0 by
the natural subtraction); with zero matching rows the route instead fails
with 500 (`C1_counterexample`). -/
theorem C1_window_length :
    (∀ (db : List StudentRow) (p : StudentsParams) (ps ls : String) (page limit : ℕ),
      p.page = some ps → p.limit = some ls →
      jsToNumber ps = some (page : ℚ) → jsToNumber ls = some (limit : ℚ) →
      pgParseInt ls = some (limit : ℤ) →
      1 ≤ page → 1 ≤ limit →
      studentsMatching db p ≠ [] →
      ∃ data pgn, studentsRoute db p = ListOutcome.ok data pgn ∧
        data.length = min limit ((studentsMatching db p).length - (page - 1) * limit))
    ∧ (∀ (db : List SchoolRow) (p : SchoolsParams) (ps ls : String) (page limit : ℕ),
      p.page = some ps → p.limit = some ls →
      jsToNumber ps = some (page : ℚ) → jsToNumber ls = some (limit : ℚ) →
      pgParseInt ls = some (limit : ℤ) →
      1 ≤ page → 1 ≤ limit →
      schoolsMatching db p ≠ [] →
      ∃ data pgn, schoolsRoute db p = ListOutcome.ok data pgn ∧
        data.length = min limit ((schoolsMatching db p).length - (page - 1) * limit)) := by
  constructor
  · intro db p ps ls page limit hp hl hnum hlnum hpg hp1 _hl1 hne
    cases hf : studentFilter p with
    | none =>
      exact absurd (by unfold studentsMatching; rw [hf]) hne
    | some pred =>
      have hm : studentsMatching db p = db.filter pred := by
        unfold studentsMatching; rw [hf]
      rw [hm] at hne ⊢
      cases hdb : db.filter pred with
      | nil => exact absurd hdb hne
      | cons r rs =>
        have hlimP : pgLimitParam ((p.limit).getD "50") = some limit := by
          simp [hl, pgLimitParam, hpg, Int.toNat_natCast]
        have hoff : studentsOffsetN p = some (((page - 1) * limit : ℕ) : ℚ) := by
          simp only [studentsOffsetN, jsNumberParam, hp, hl, hnum, hlnum, jsSub, jsMul]
          congr 1
          push_cast [hp1]
          ring
        have hwin : pgWindowNat (studentsOffsetN p) = some ((page - 1) * limit) := by
          rw [hoff, pgWindowNat_natCast]
        have hroute : studentsRoute db p =
            ListOutcome.ok
              (((sortStudents (r :: rs)).drop ((page - 1) * limit)).take limit)
              (studentsPagination p) := by
          simp only [studentsRoute, hf, hdb, hlimP, hwin]
        refine ⟨_, _, hroute, ?_⟩
        rw [List.length_take, List.length_drop]
        unfold sortStudents
        rw [(List.perm_insertionSort studentOrder (r :: rs)).length_eq]
  · intro db p ps ls page limit hp hl hnum hlnum hpg hp1 _hl1 hne
    cases hf : schoolFilter p with
    | none =>
      exact absurd (by unfold schoolsMatching; rw [hf]) hne
    | some pred =>
      have hm : schoolsMatching db p = db.filter pred := by
        unfold schoolsMatching; rw [hf]
      rw [hm] at hne ⊢
      cases hdb : db.filter pred with
      | nil => exact absurd hdb hne
      | cons r rs =>
        have hlimP : pgLimitParam ((p.limit).getD "20") = some limit := by
          simp [hl, pgLimitParam, hpg, Int.toNat_natCast]
        have hoff : schoolsOffsetN p = some (((page - 1) * limit : ℕ) : ℚ) := by
          simp only [schoolsOffsetN, jsNumberParam, hp, hl, hnum, hlnum, jsSub, jsMul]
          congr 1
          push_cast [hp1]
          ring
        have hwin : pgWindowNat (schoolsOffsetN p) = some ((page - 1) * limit) := by
          rw [hoff, pgWindowNat_natCast]
        have hroute : schoolsRoute db p =
            ListOutcome.ok
              (((sortSchools (r :: rs)).drop ((page - 1) * limit)).take limit)
              (schoolsPagination p) := by
          simp only [schoolsRoute, hf, hdb, hlimP, hwin]
        refine ⟨_, _, hroute, ?_⟩
        rw [List.length_take, List.length_drop]
        unfold sortSchools
        rw [(List.perm_insertionSort schoolOrder (r :: rs)).length_eq]

/-- C1 witness: three matching rows, `page=2`, `limit=2`: both routes answer
success with a data array of length `min 2 (3 - 2) = 1`. -/
theorem C1_witness :
    (∃ data pgn,
      studentsRoute [stuRow1, stuRow2, stuRow3]
          ⟨some "2", some "2", none, none, none, none, none⟩ =
        ListOutcome.ok data pgn ∧
      data.length = min 2 ((studentsMatching [stuRow1, stuRow2, stuRow3]
          ⟨some "2", some "2", none, none, none, none, none⟩).length - (2 - 1) * 2))
    ∧ (∃ data pgn,
      schoolsRoute [schRow1, schRow2, schRow3]
          ⟨some "2", some "2", none, none, none, none⟩ =
        ListOutcome.ok data pgn ∧
      data.length = min 2 ((schoolsMatching [schRow1, schRow2, schRow3]
          ⟨some "2", some "2", none, none, none, none⟩).length - (2 - 1) * 2)) :=
  ⟨C1_window_length.1 [stuRow1, stuRow2, stuRow3]
      ⟨some "2", some "2", none, none, none, none, none⟩ "2" "2" 2 2 rfl rfl
      (by decide) (by decide) (by decide) (by decide) (by decide) (by decide),
   C1_window_length.2 [schRow1, schRow2, schRow3]
      ⟨some "2", some "2", none, none, none, none⟩ "2" "2" 2 2 rfl rfl
      (by decide) (by decide) (by decide) (by decide) (by decide) (by decide)⟩

/-- Success-path equation of the students route, given the computed parts. -/
theorem studentsRoute_eq_ok (db : List StudentRow) (p : StudentsParams)
    (pred : StudentRow → Bool) (r : StudentRow) (rs : List StudentRow) (l o : ℕ)
    (hf : studentFilter p = some pred) (hdb : db.filter pred = r :: rs)
    (hlimP : pgLimitParam ((p.limit).getD "50") = some l)
    (hwin : pgWindowNat (studentsOffsetN p) = some o) :
    studentsRoute db p =
      ListOutcome.ok (((sortStudents (r :: rs)).drop o).take l) (studentsPagination p) := by
  simp only [studentsRoute, hf, hdb, hlimP, hwin]

/-- Success-path equation of the schools route, given the computed parts. -/
theorem schoolsRoute_eq_ok (db : List SchoolRow) (p : SchoolsParams)
    (pred : SchoolRow → Bool) (r : SchoolRow) (rs : List SchoolRow) (l o : ℕ)
    (hf : schoolFilter p = some pred) (hdb : db.filter pred = r :: rs)
    (hlimP : pgLimitParam ((p.limit).getD "20") = some l)
    (hwin : pgWindowNat (schoolsOffsetN p) = some o) :
    schoolsRoute db p =
      ListOutcome.ok (((sortSchools (r :: rs)).drop o).take l) (schoolsPagination p) := by
  simp only [schoolsRoute, hf, hdb, hlimP, hwin]

/-- With `page = 1` (absent or the string "1") and any finite limit value,
the computed offset `(page - 1) * limit` is the integer 0, accepted by
Postgres. -/
theorem pgWindowNat_page_one (x y : JSNum) (hx : x = some ((1 : ℕ) : ℚ))
    (hy : ∃ q : ℚ, y = some q) :
    pgWindowNat (jsMul (jsSub x (some 1)) y) = some 0 := by
  obtain ⟨q, rfl⟩ := hy
  rw [hx]
  show pgWindowNat (some ((((1 : ℕ) : ℚ) - 1) * q)) = some 0
  have h2 : ((((1 : ℕ) : ℚ) - 1) * q) = ((0 : ℕ) : ℚ) := by norm_num
  rw [h2, pgWindowNat_natCast]

/-- C2 (code defect): on a request with one matching row and `page=1`,
`limit=20`/`limit=50`, the served pagination envelope has `total = NaN` and
`pages = NaN` (both serialize to `null`), never `ceil(total/limit)`; and
with zero matching rows the route fails with 500 instead of answering
`pages = 0` with an empty data array.  Root cause: the `countQuery` regex
replace never matches (`studentsQuery_no_match` / `schoolsQuery_no_match`),
so `totalCount = parseInt(rows[0].count) = parseInt(undefined) = NaN` and
`Math.ceil(NaN / limit) = NaN`. -/
theorem C2_pages_NaN :
    schoolsRoute [schRow1] ⟨some "1", some "20", none, none, none, none⟩ =
      ListOutcome.ok [schRow1]
        { page := some 1, limit := some 20, total := none, pages := none } ∧
    (schoolsMatching [schRow1] ⟨some "1", some "20", none, none, none, none⟩).length = 1 ∧
    schoolsRoute ([] : List SchoolRow) ⟨some "1", some "20", none, none, none, none⟩ =
      ListOutcome.serverError "Failed to fetch schools" ∧
    studentsRoute [stuRow1] ⟨some "1", some "50", none, none, none, none, none⟩ =
      ListOutcome.ok [stuRow1]
        { page := some 1, limit := some 50, total := none, pages := none } := by
  refine ⟨?_, by decide, by decide, ?_⟩
  · have hwin : pgWindowNat (schoolsOffsetN ⟨some "1", some "20", none, none, none, none⟩) =
        some 0 := by
      show pgWindowNat (jsMul (jsSub (jsToNumber "1") (some 1)) (jsToNumber "20")) = some 0
      exact pgWindowNat_page_one _ _ rfl ⟨((20 : ℕ) : ℚ), rfl⟩
    have hroute := schoolsRoute_eq_ok [schRow1] ⟨some "1", some "20", none, none, none, none⟩
      _ schRow1 [] 20 0 rfl rfl (by decide) hwin
    rw [hroute]
    show ListOutcome.ok (((sortSchools [schRow1]).drop 0).take 20) _ = _
    norm_num [sortSchools, List.insertionSort]
    decide
  · have hwin : pgWindowNat (studentsOffsetN
        ⟨some "1", some "50", none, none, none, none, none⟩) = some 0 := by
      show pgWindowNat (jsMul (jsSub (jsToNumber "1") (some 1)) (jsToNumber "50")) = some 0
      exact pgWindowNat_page_one _ _ rfl ⟨((50 : ℕ) : ℚ), rfl⟩
    have hroute := studentsRoute_eq_ok [stuRow1]
      ⟨some "1", some "50", none, none, none, none, none⟩
      _ stuRow1 [] 50 0 rfl rfl (by decide) hwin
    rw [hroute]
    show ListOutcome.ok (((sortStudents [stuRow1]).drop 0).take 50) _ = _
    norm_num [sortStudents, List.insertionSort]
    decide

/-- C3 (code defect): for every filter combination of either list route,
`query.replace(/SELECT.*?FROM/, 'SELECT COUNT(*) FROM')` returns the query
text unchanged — the regex cannot match across the newlines of the
template literal — so the executed count query is the data query itself and
the reported `total` is `NaN` (`null`), not the number of matching rows:
concretely, with two matching rows the served envelope carries
`total = null` while the matching row count is 2. -/
theorem C3_count_query_unchanged :
    (∀ p : StudentsParams,
      jsReplaceSelectFrom (studentsQueryText (truthy p.school_id) (truthy p.class_number)
          (truthy p.section_name) (truthy p.search)) =
        studentsQueryText (truthy p.school_id) (truthy p.class_number)
          (truthy p.section_name) (truthy p.search))
    ∧ (∀ p : SchoolsParams,
      jsReplaceSelectFrom (schoolsQueryText (truthy p.district_id) (truthy p.block_id)
          (truthy p.search)) =
        schoolsQueryText (truthy p.district_id) (truthy p.block_id) (truthy p.search))
    ∧ studentsRoute [stuRow1, stuRow2] ⟨none, none, none, none, none, none, none⟩ =
        ListOutcome.ok [stuRow1, stuRow2]
          { page := some 1, limit := some 50, total := none, pages := none }
    ∧ (studentsMatching [stuRow1, stuRow2] ⟨none, none, none, none, none, none, none⟩).length
        = 2 := by
  refine ⟨fun p => jsReplaceSelectFrom_of_no_match _ (studentsQuery_no_match _ _ _ _),
    fun p => jsReplaceSelectFrom_of_no_match _ (schoolsQuery_no_match _ _ _),
    ?_, by decide⟩
  have hwin : pgWindowNat (studentsOffsetN
      ⟨none, none, none, none, none, none, none⟩) = some 0 := by
    show pgWindowNat (jsMul (jsSub (some ((1 : ℕ) : ℚ)) (some 1)) (some 50)) = some 0
    exact pgWindowNat_page_one _ _ rfl ⟨(50 : ℚ), rfl⟩
  have hroute := studentsRoute_eq_ok [stuRow1, stuRow2]
    ⟨none, none, none, none, none, none, none⟩
    _ stuRow1 [stuRow2] 50 0 rfl rfl (by decide) hwin
  rw [hroute]
  show ListOutcome.ok (((sortStudents [stuRow1, stuRow2]).drop 0).take 50) _ = _
  norm_num [sortStudents, List.insertionSort]
  decide

/-- C6 counterexample: with a present but non-numeric `page` the students
route does not fall back to defaults and answer success — the computed
offset is `NaN`, the data query fails, and the route answers the generic
500 error (the database itself holds a matching row). -/
theorem C6_counterexample :
    studentsRoute [stuRow1] ⟨some "abc", none, none, none, none, none, none⟩ =
      ListOutcome.serverError "Failed to fetch students" := by
  decide

/-- C6 amended: the destructuring defaults (`page=1`, `limit=20` for
schools / `50` for students) apply only when the parameter is absent, in
which case the route succeeds (given at least one matching row) with the
default window and echoes `page=1` and the default limit; a present but
non-numeric `page` or `limit` instead makes the offset `NaN`, the database
rejects the window parameters, and the route answers 500. -/
theorem C6_default_or_500 :
    (∀ (db : List StudentRow) (p : StudentsParams),
      p.page = none → p.limit = none → studentsMatching db p ≠ [] →
      studentsRoute db p =
        ListOutcome.ok ((sortStudents (studentsMatching db p)).take 50)
          (studentsPagination p)
      ∧ (studentsPagination p).page = some 1 ∧ (studentsPagination p).limit = some 50)
    ∧ (∀ (db : List SchoolRow) (p : SchoolsParams),
      p.page = none → p.limit = none → schoolsMatching db p ≠ [] →
      schoolsRoute db p =
        ListOutcome.ok ((sortSchools (schoolsMatching db p)).take 20)
          (schoolsPagination p)
      ∧ (schoolsPagination p).page = some 1 ∧ (schoolsPagination p).limit = some 20)
    ∧ (∀ (db : List StudentRow) (p : StudentsParams) (s : String),
      p.page = some s → jsToNumber s = none →
      studentsRoute db p = ListOutcome.serverError "Failed to fetch students")
    ∧ (∀ (db : List StudentRow) (p : StudentsParams) (s : String),
      p.limit = some s → jsToNumber s = none →
      studentsRoute db p = ListOutcome.serverError "Failed to fetch students")
    ∧ (∀ (db : List SchoolRow) (p : SchoolsParams) (s : String),
      p.page = some s → jsToNumber s = none →
      schoolsRoute db p = ListOutcome.serverError "Failed to fetch schools")
    ∧ (∀ (db : List SchoolRow) (p : SchoolsParams) (s : String),
      p.limit = some s → jsToNumber s = none →
      schoolsRoute db p = ListOutcome.serverError "Failed to fetch schools") := by
  refine ⟨?_, ?_, ?_, ?_, ?_, ?_⟩
  · intro db p hpage hlimit hne
    cases hf : studentFilter p with
    | none => exact absurd (by unfold studentsMatching; rw [hf]) hne
    | some pred =>
      have hm : studentsMatching db p = db.filter pred := by
        unfold studentsMatching; rw [hf]
      rw [hm] at hne ⊢
      cases hdb : db.filter pred with
      | nil => exact absurd hdb hne
      | cons r rs =>
        have hlimP : pgLimitParam ((p.limit).getD "50") = some 50 := by
          rw [hlimit]; decide
        have hwin : pgWindowNat (studentsOffsetN p) = some 0 := by
          show pgWindowNat
            (jsMul (jsSub (jsNumberParam p.page 1) (some 1)) (jsNumberParam p.limit 50)) =
              some 0
          rw [hpage, hlimit]
          simp only [jsNumberParam]
          exact pgWindowNat_page_one _ _ (by norm_num) ⟨50, rfl⟩
        have hroute := studentsRoute_eq_ok db p pred r rs 50 0 hf hdb hlimP hwin
        rw [hroute, List.drop_zero]
        refine ⟨rfl, ?_, ?_⟩
        · simp [studentsPagination, jsParseIntParam, hpage]
        · simp [studentsPagination, jsParseIntParam, hlimit]
  · intro db p hpage hlimit hne
    cases hf : schoolFilter p with
    | none => exact absurd (by unfold schoolsMatching; rw [hf]) hne
    | some pred =>
      have hm : schoolsMatching db p = db.filter pred := by
        unfold schoolsMatching; rw [hf]
      rw [hm] at hne ⊢
      cases hdb : db.filter pred with
      | nil => exact absurd hdb hne
      | cons r rs =>
        have hlimP : pgLimitParam ((p.limit).getD "20") = some 20 := by
          rw [hlimit]; decide
        have hwin : pgWindowNat (schoolsOffsetN p) = some 0 := by
          show pgWindowNat
            (jsMul (jsSub (jsNumberParam p.page 1) (some 1)) (jsNumberParam p.limit 20)) =
              some 0
          rw [hpage, hlimit]
          simp only [jsNumberParam]
          exact pgWindowNat_page_one _ _ (by norm_num) ⟨20, rfl⟩
        have hroute := schoolsRoute_eq_ok db p pred r rs 20 0 hf hdb hlimP hwin
        rw [hroute, List.drop_zero]
        refine ⟨rfl, ?_, ?_⟩
        · simp [schoolsPagination, jsParseIntParam, hpage]
        · simp [schoolsPagination, jsParseIntParam, hlimit]
  · intro db p s hpage hnan
    cases hf : studentFilter p with
    | none => simp [studentsRoute, hf]
    | some pred =>
      cases hdb : db.filter pred with
      | nil => simp [studentsRoute, hf, hdb]
      | cons r rs =>
        have hoff : studentsOffsetN p = none := by
          show jsMul (jsSub (jsNumberParam p.page 1) (some 1)) (jsNumberParam p.limit 50) =
            none
          rw [hpage]
          simp only [jsNumberParam, hnan]
          rfl
        simp only [studentsRoute, hf, hdb, hoff]
        cases pgLimitParam ((p.limit).getD "50") <;> rfl
  · intro db p s hlimit hnan
    cases hf : studentFilter p with
    | none => simp [studentsRoute, hf]
    | some pred =>
      cases hdb : db.filter pred with
      | nil => simp [studentsRoute, hf, hdb]
      | cons r rs =>
        have hoff : studentsOffsetN p = none := by
          show jsMul (jsSub (jsNumberParam p.page 1) (some 1)) (jsNumberParam p.limit 50) =
            none
          rw [hlimit]
          simp only [jsNumberParam, hnan]
          cases jsNumberParam p.page 1 <;> simp [jsSub, jsMul]
        simp only [studentsRoute, hf, hdb, hoff]
        cases pgLimitParam ((p.limit).getD "50") <;> rfl
  · intro db p s hpage hnan
    cases hf : schoolFilter p with
    | none => simp [schoolsRoute, hf]
    | some pred =>
      cases hdb : db.filter pred with
      | nil => simp [schoolsRoute, hf, hdb]
      | cons r rs =>
        have hoff : schoolsOffsetN p = none := by
          show jsMul (jsSub (jsNumberParam p.page 1) (some 1)) (jsNumberParam p.limit 20) =
            none
          rw [hpage]
          simp only [jsNumberParam, hnan]
          rfl
        simp only [schoolsRoute, hf, hdb, hoff]
        cases pgLimitParam ((p.limit).getD "20") <;> rfl
  · intro db p s hlimit hnan
    cases hf : schoolFilter p with
    | none => simp [schoolsRoute, hf]
    | some pred =>
      cases hdb : db.filter pred with
      | nil => simp [schoolsRoute, hf, hdb]
      | cons r rs =>
        have hoff : schoolsOffsetN p = none := by
          show jsMul (jsSub (jsNumberParam p.page 1) (some 1)) (jsNumberParam p.limit 20) =
            none
          rw [hlimit]
          simp only [jsNumberParam, hnan]
          cases jsNumberParam p.page 1 <;> simp [jsSub, jsMul]
        simp only [schoolsRoute, hf, hdb, hoff]
        cases pgLimitParam ((p.limit).getD "20") <;> rfl

/-- C6 witness: absent `page`/`limit` on a one-row database succeed with
the defaults, and a non-numeric `limit` answers 500. -/
theorem C6_witness :
    (studentsRoute [stuRow1] ⟨none, none, none, none, none, none, none⟩ =
      ListOutcome.ok
        ((sortStudents (studentsMatching [stuRow1]
            ⟨none, none, none, none, none, none, none⟩)).take 50)
        (studentsPagination ⟨none, none, none, none, none, none, none⟩)
      ∧ (studentsPagination ⟨none, none, none, none, none, none, none⟩).page = some 1
      ∧ (studentsPagination ⟨none, none, none, none, none, none, none⟩).limit = some 50)
    ∧ schoolsRoute [schRow1] ⟨none, some "20x", none, none, none, none⟩ =
        ListOutcome.serverError "Failed to fetch schools" :=
  ⟨C6_default_or_500.1 [stuRow1] ⟨none, none, none, none, none, none, none⟩ rfl rfl
      (by decide),
   C6_default_or_500.2.2.2.2.2 [schRow1] ⟨none, some "20x", none, none, none, none⟩
      "20x" rfl (by decide)⟩

/-- C8: a `GET /api/students/:id` whose id matches no student row answers
404 with `{success:false, error:"Student not found"}`; an id that matches a
student (whose school, block and district rows exist, as the foreign keys
guarantee) answers success with the student joined to its school and
district names plus that student's most recent attendance records: at most
10 of them (exactly `min 10 count`), ordered by `attendance_date`
descending, all belonging to that student, and no omitted record of the
student is more recent than a returned one. -/
theorem C8_detail_route :
    (∀ (db : PortalDb) (idStr : String) (i : ℤ),
      pgParseInt idStr = some i →
      (∀ s ∈ db.students, (s.student_id : ℤ) ≠ i) →
      studentDetailRoute db idStr = DetailOutcome.notFound "Student not found")
    ∧ (∀ (db : PortalDb) (idStr : String) (i : ℤ) (s : Student) (sc : School)
        (b : BlockRow) (d : District),
      pgParseInt idStr = some i →
      s ∈ db.students → (s.student_id : ℤ) = i →
      sc ∈ db.schools → sc.school_id = s.school_id →
      b ∈ db.blocks → b.block_id = sc.block_id →
      d ∈ db.districts → d.district_id = b.district_id →
      ∃ r att, studentDetailRoute db idStr = DetailOutcome.ok r att
        ∧ r.student ∈ db.students ∧ (r.student.student_id : ℤ) = i
        ∧ (∃ sc2 ∈ db.schools, sc2.school_id = r.student.school_id
            ∧ r.school_name = sc2.name)
        ∧ (∃ b2 ∈ db.blocks, ∃ d2 ∈ db.districts,
            d2.district_id = b2.district_id ∧ r.district_name = d2.name)
        ∧ att.length =
            min 10 (db.attendance.filter (fun a => decide ((a.student_id : ℤ) = i))).length
        ∧ att.Pairwise attendanceDesc
        ∧ (∀ a ∈ att, a ∈ db.attendance ∧ (a.student_id : ℤ) = i)
        ∧ (∀ y ∈ db.attendance, (y.student_id : ℤ) = i → y ∉ att →
            ∀ x ∈ att, y.attendance_date ≤ x.attendance_date)) := by
  constructor
  · intro db idStr i hparse hnone
    have hflt : db.students.filter (fun s => decide ((s.student_id : ℤ) = i)) = [] :=
      List.filter_eq_nil_iff.mpr (fun s hs => by simpa using hnone s hs)
    have hj : studentJoinRows db i = [] := by
      unfold studentJoinRows
      rw [hflt]
      rfl
    simp only [studentDetailRoute, hparse, hj]
  · intro db idStr i s sc b d hparse hs hsid hsc hscid hb hbid hd hdid
    have hmem : (⟨s, sc.name, d.name⟩ : StudentDetailRow) ∈ studentJoinRows db i := by
      unfold studentJoinRows
      refine List.mem_flatMap.mpr ⟨s, List.mem_filter.mpr ⟨hs, by simp [hsid]⟩, ?_⟩
      refine List.mem_flatMap.mpr ⟨sc, List.mem_filter.mpr ⟨hsc, by simp [hscid]⟩, ?_⟩
      refine List.mem_flatMap.mpr ⟨b, List.mem_filter.mpr ⟨hb, by simp [hbid]⟩, ?_⟩
      exact List.mem_map.mpr ⟨d, List.mem_filter.mpr ⟨hd, by simp [hdid]⟩, rfl⟩
    cases hj : studentJoinRows db i with
    | nil => rw [hj] at hmem; exact absurd hmem (List.not_mem_nil _)
    | cons r rest =>
      have hroute : studentDetailRoute db idStr =
          DetailOutcome.ok r
            ((List.insertionSort attendanceDesc
              (db.attendance.filter (fun a => decide ((a.student_id : ℤ) = i)))).take 10) := by
        simp only [studentDetailRoute, hparse, hj]
      have hrmem : r ∈ studentJoinRows db i := by
        rw [hj]; exact List.mem_cons_self r rest
      unfold studentJoinRows at hrmem
      obtain ⟨s2, hs2, hrest⟩ := List.mem_flatMap.mp hrmem
      obtain ⟨sc2, hsc2, hrest2⟩ := List.mem_flatMap.mp hrest
      obtain ⟨b2, hb2, hrest3⟩ := List.mem_flatMap.mp hrest2
      obtain ⟨d2, hd2, hreq⟩ := List.mem_map.mp hrest3
      obtain ⟨hs2mem, hs2id⟩ := List.mem_filter.mp hs2
      obtain ⟨hsc2mem, hsc2id⟩ := List.mem_filter.mp hsc2
      obtain ⟨hb2mem, hb2id⟩ := List.mem_filter.mp hb2
      obtain ⟨hd2mem, hd2id⟩ := List.mem_filter.mp hd2
      subst hreq
      refine ⟨_, _, hroute, hs2mem, by simpa using hs2id, ?_, ?_, ?_, ?_, ?_, ?_⟩
      · exact ⟨sc2, hsc2mem, by simpa using hsc2id, rfl⟩
      · exact ⟨b2, hb2mem, d2, hd2mem, by simpa using hd2id, rfl⟩
      · rw [List.length_take,
          (List.perm_insertionSort attendanceDesc _).length_eq]
      · exact (List.sorted_insertionSort attendanceDesc _).sublist
          (List.take_sublist _ _)
      · intro a ha
        have : a ∈ db.attendance.filter (fun a => decide ((a.student_id : ℤ) = i)) := by
          have h1 := (List.take_sublist 10 _).subset ha
          exact ((List.perm_insertionSort attendanceDesc _).mem_iff).mp h1
        have h2 := List.mem_filter.mp this
        exact ⟨h2.1, by simpa using h2.2⟩
      · intro y hy hyid hynot x hx
        have hyfilter : y ∈ db.attendance.filter (fun a => decide ((a.student_id : ℤ) = i)) :=
          List.mem_filter.mpr ⟨hy, by simp [hyid]⟩
        have hysort : y ∈ List.insertionSort attendanceDesc
            (db.attendance.filter (fun a => decide ((a.student_id : ℤ) = i))) :=
          ((List.perm_insertionSort attendanceDesc _).mem_iff).mpr hyfilter
        have hsplit := List.take_append_drop 10 (List.insertionSort attendanceDesc
            (db.attendance.filter (fun a => decide ((a.student_id : ℤ) = i))))
        have hpw : ((List.insertionSort attendanceDesc
            (db.attendance.filter (fun a => decide ((a.student_id : ℤ) = i)))).take 10 ++
            (List.insertionSort attendanceDesc
            (db.attendance.filter (fun a => decide ((a.student_id : ℤ) = i)))).drop 10
            ).Pairwise attendanceDesc := by
          rw [hsplit]
          exact List.sorted_insertionSort attendanceDesc _
        have hydrop : y ∈ (List.insertionSort attendanceDesc
            (db.attendance.filter (fun a => decide ((a.student_id : ℤ) = i)))).drop 10 := by
          rw [← hsplit] at hysort
          rcases List.mem_append.mp hysort with h | h
          · exact absurd h hynot
          · exact h
        exact (List.pairwise_append.mp hpw).2.2 x hx y hydrop

/-- Concrete relational state for the detail-route witness. -/
def dbC8 : PortalDb :=
  { students := [⟨1, 1, "Asha", "Behera", "Active"⟩]
    schools := [⟨1, 1, "GP School"⟩]
    blocks := [⟨1, 1, "BlockA"⟩]
    districts := [⟨1, "Khurda"⟩]
    attendance := [⟨1, 5, "Present"⟩, ⟨1, 3, "Absent"⟩, ⟨2, 9, "Present"⟩] }

/-- C8 witness: id 999999 answers 404; id 1 answers success with the joined
names and the windowed, descending attendance history. -/
theorem C8_witness :
    studentDetailRoute dbC8 "999999" = DetailOutcome.notFound "Student not found"
    ∧ ∃ r att, studentDetailRoute dbC8 "1" = DetailOutcome.ok r att
      ∧ r.student ∈ dbC8.students ∧ (r.student.student_id : ℤ) = 1
      ∧ (∃ sc2 ∈ dbC8.schools, sc2.school_id = r.student.school_id
          ∧ r.school_name = sc2.name)
      ∧ (∃ b2 ∈ dbC8.blocks, ∃ d2 ∈ dbC8.districts,
          d2.district_id = b2.district_id ∧ r.district_name = d2.name)
      ∧ att.length =
          min 10 (dbC8.attendance.filter (fun a => decide ((a.student_id : ℤ) = 1))).length
      ∧ att.Pairwise attendanceDesc
      ∧ (∀ a ∈ att, a ∈ dbC8.attendance ∧ (a.student_id : ℤ) = 1)
      ∧ (∀ y ∈ dbC8.attendance, (y.student_id : ℤ) = 1 → y ∉ att →
          ∀ x ∈ att, y.attendance_date ≤ x.attendance_date) :=
  ⟨C8_detail_route.1 dbC8 "999999" 999999 (by decide) (by decide),
   C8_detail_route.2 dbC8 "1" 1 ⟨1, 1, "Asha", "Behera", "Active"⟩ ⟨1, 1, "GP School"⟩
     ⟨1, 1, "BlockA"⟩ ⟨1, "Khurda"⟩ (by decide) (by decide) (by decide) (by decide) rfl
     (by decide) rfl (by decide) rfl⟩
